import Mathlib

/-!
Shallow embedding of the oviro-next draft-plan flow:
the POST handler of `src/app/api/draft-plan/route.ts` and the client-side
preview of `src/app/page.tsx`.

JavaScript strings are modelled as `String`; an optional field of the JSON
body is `Option String` (`none` when missing or `undefined`).  Truthiness of
a string is non-emptiness; `s.trim()` is `jsTrim`.  The handler is a
pure function of its three effectful inputs: the parse result of the request
body, the value of the `OPENAI_API_KEY` environment variable, and the outcome
of the external chat-completion call (an `Except` whose error carries the
thrown error's detail).
-/

/-- JS `s.trim()`: drop leading and trailing whitespace.  Defined by
structural recursion on the character list so that it evaluates inside the
kernel. -/
def jsTrim (s : String) : String :=
  ⟨((s.data.dropWhile Char.isWhitespace).reverse.dropWhile Char.isWhitespace).reverse⟩

/-- Shape of a "child" object from the frontend (`route.ts` `ChildInput`);
every field is optional. -/
structure ChildInput where
  id : Option Int := none
  name : Option String := none
  age : Option String := none
  grade : Option String := none
deriving DecidableEq, Repr

/-- Parsed JSON request body.  `children` is `some` list exactly when
`Array.isArray(body.children)` holds; a missing or non-array `children`
field is `none`.  Scalar fields are `none` when missing. -/
structure RequestBody where
  children : Option (List ChildInput) := none
  philosophy : Option String := none
  location : Option String := none
  goals : Option String := none
deriving DecidableEq, Repr

/-- The `normalized` object echoed in the success response. -/
structure Normalized where
  children : List ChildInput
  philosophy : String
  location : String
  goals : String
deriving DecidableEq, Repr

/-- JSON body of a response: `\x7b error \x7d` or `\x7b summary, normalized \x7d`. -/
inductive ResponseBody where
  | errorBody : String → ResponseBody
  | successBody : String → Normalized → ResponseBody
deriving DecidableEq, Repr

/-- An HTTP response: status code plus JSON body. -/
structure HttpResponse where
  status : Nat
  body : ResponseBody
deriving DecidableEq, Repr

/-- JS `field || 'Not specified'` for an optional string field
(`route.ts` lines 44 to 46): a missing field or the empty string is
defaulted; any non-empty string, whitespace included, passes through. -/
def orNotSpecified : Option String → String
  | none => "Not specified"
  | some s => if s = "" then "Not specified" else s

/-- Truthiness of `(f && f.trim())` for one optional field of a child
(`route.ts` lines 51 to 53). -/
def fieldFilled : Option String → Bool
  | none => false
  | some s => !(s == "") && !(jsTrim s == "")

/-- The filter predicate of `route.ts` lines 49 to 54: a child is kept when
at least one of its three text fields is truthy and non-whitespace. -/
def isFilled (c : ChildInput) : Bool :=
  fieldFilled c.name || fieldFilled c.age || fieldFilled c.grade

/-- JS `o?.trim() || fallback`. -/
def trimOr (o : Option String) (fallback : String) : String :=
  match o with
  | none => fallback
  | some s => if jsTrim s = "" then fallback else jsTrim s

/-- Descriptor of the filled child at 0-based `index`
(`route.ts` lines 67 to 72). -/
def descriptor (index : Nat) (c : ChildInput) : String :=
  trimOr c.name ("Child " ++ toString (index + 1)) ++ " (age " ++
    trimOr c.age "?" ++ ", grade " ++ trimOr c.grade "?" ++ ")"

/-- `filledChildren.map((c, index) => ...)`, the index threaded explicitly. -/
def descriptorsFrom (index : Nat) : List ChildInput → List String
  | [] => []
  | c :: cs => descriptor index c :: descriptorsFrom (index + 1) cs

/-- `route.ts` lines 66 to 73: descriptors of all filled children joined
with ", ". -/
def childDescriptions (cs : List ChildInput) : String :=
  String.intercalate ", " (descriptorsFrom 0 cs)

/-- The local fallback summary template of `route.ts` lines 104 to 113
(a template literal, then `.trim()`). -/
def fallbackSummary (cd philosophy location goals : String) : String :=
  jsTrim ("\nDraft planning summary (local fallback)\n--------------------------------------\nChildren: "
    ++ cd ++ "\nPhilosophy: " ++ philosophy ++ "\nLocation: " ++ location
    ++ "\nParent priorities: " ++ goals
    ++ "\n\nNote: The OpenAI API key is not configured on the server, so this is a simple placeholder summary instead of an AI-generated one.\n      ")

/-- One message of the external completion response; `content` may be
missing. -/
structure AIMessage where
  content : Option String := none
deriving DecidableEq, Repr

/-- One choice of the external completion response; `message` may be
missing. -/
structure AIChoice where
  message : Option AIMessage := none
deriving DecidableEq, Repr

/-- The external completion response: a list of choices. -/
structure Completion where
  choices : List AIChoice := []
deriving DecidableEq, Repr

/-- `completion.choices[0]?.message?.content` -/
def completionText (c : Completion) : Option String :=
  c.choices.head?.bind fun ch => ch.message.bind fun m => m.content

/-- `route.ts` lines 145 to 147: the extracted text trimmed, or the fixed
fallback sentence when no non-whitespace text is present. -/
def aiSummary (c : Completion) : String :=
  trimOr (completionText c) "Unable to generate a summary at this time."

/-- JS truthiness of `process.env.OPENAI_API_KEY` (`route.ts` line 103):
set and non-empty. -/
def keyConfigured : Option String → Bool
  | none => false
  | some s => !(s == "")

/-- The 400 response of `route.ts` lines 58 to 61. -/
def validationErrorResponse : HttpResponse :=
  ⟨400, .errorBody "At least one child is required."⟩

/-- The 400 response of the catch block, `route.ts` lines 164 to 167. -/
def genericErrorResponse : HttpResponse :=
  ⟨400, .errorBody "Invalid request payload or AI generation error."⟩

/-- The POST handler of `route.ts` (lines 33 to 169) as a pure function of
the body parse result, the `OPENAI_API_KEY` value, and the outcome of the
external completion call.  A parse failure or a throwing completion call
lands in the catch block. -/
def POST (parsed : Except String RequestBody) (apiKey : Option String)
    (aiResult : Except String Completion) : HttpResponse :=
  match parsed with
  | .error _ => genericErrorResponse
  | .ok body =>
    let children := body.children.getD []
    let philosophy := orNotSpecified body.philosophy
    let location := orNotSpecified body.location
    let goals := orNotSpecified body.goals
    let filledChildren := children.filter isFilled
    if filledChildren.length = 0 then
      validationErrorResponse
    else if !keyConfigured apiKey then
      ⟨200, .successBody
        (fallbackSummary (childDescriptions filledChildren) philosophy location goals)
        ⟨filledChildren, philosophy, location, goals⟩⟩
    else
      match aiResult with
      | .error _ => genericErrorResponse
      | .ok completion =>
        ⟨200, .successBody (aiSummary completion)
          ⟨filledChildren, philosophy, location, goals⟩⟩

/-! ### Client-side preview (`src/app/page.tsx`) -/

/-- A child row of the client form; fields are always present strings. -/
structure Child where
  id : Int
  name : String
  age : String
  grade : String
deriving DecidableEq, Repr

/-- Client filter predicate (`page.tsx` lines 54 to 56). -/
def clientFilled (c : Child) : Bool :=
  !(jsTrim c.name == "") || !(jsTrim c.age == "") || !(jsTrim c.grade == "")

/-- Client descriptor (`page.tsx` line 64): no trimming, `'Unnamed'` name
fallback. -/
def clientDescriptor (c : Child) : String :=
  (if c.name = "" then "Unnamed" else c.name) ++ " (age " ++
    (if c.age = "" then "?" else c.age) ++ ", grade " ++
    (if c.grade = "" then "?" else c.grade) ++ ")"

/-- Client descriptor text (`page.tsx` lines 63 to 65). -/
def clientDescriptions (cs : List Child) : String :=
  String.intercalate ", " ((cs.filter clientFilled).map clientDescriptor)

/-- A client child row as the server receives it in the JSON body. -/
def Child.toInput (c : Child) : ChildInput :=
  ⟨some c.id, some c.name, some c.age, some c.grade⟩

/-- The descriptor text the server computes for the same rows. -/
def serverDescriptions (cs : List Child) : String :=
  childDescriptions ((cs.map Child.toInput).filter isFilled)

/-! ### Spec-side descriptor (spec.md section 4.1), for the refinement
claims: trimmed fields, "Child N" name fallback with N the 1-based position
among filled records, "?" age and grade fallbacks. -/

/-- Section 4.1 descriptor, written from the spec's words, for the record at
1-based `position` among the filled records; a missing field is read as the
empty string. -/
def specDescriptor (position : Nat) (name age grade : String) : String :=
  (if jsTrim name = "" then "Child " ++ toString position else jsTrim name) ++
    " (age " ++ (if jsTrim age = "" then "?" else jsTrim age) ++ ", grade " ++
    (if jsTrim grade = "" then "?" else jsTrim grade) ++ ")"

/-- Section 4.1 descriptors of a list, from 1-based `position`. -/
def specDescriptorsFrom (position : Nat) : List ChildInput → List String
  | [] => []
  | c :: cs =>
    specDescriptor position (c.name.getD "") (c.age.getD "") (c.grade.getD "")
      :: specDescriptorsFrom (position + 1) cs

/-- Section 4.1 descriptor text: labels joined with ", " in input order. -/
def specDescriptions (cs : List ChildInput) : String :=
  String.intercalate ", " (specDescriptorsFrom 1 cs)

/-! ### Helper lemmas -/

/-- The filled sublist of a request's children (`filledChildren`). -/
def filledOf (body : RequestBody) : List ChildInput :=
  (body.children.getD []).filter isFilled

/-- The `normalized` object the handler echoes for a request. -/
def normalizedOf (body : RequestBody) : Normalized :=
  ⟨filledOf body, orNotSpecified body.philosophy, orNotSpecified body.location,
    orNotSpecified body.goals⟩

/-- The 200 response of the local fallback branch (`route.ts` lines 115 to 123). -/
def localSuccessResponse (body : RequestBody) : HttpResponse :=
  ⟨200, .successBody
    (fallbackSummary (childDescriptions (filledOf body)) (orNotSpecified body.philosophy)
      (orNotSpecified body.location) (orNotSpecified body.goals))
    (normalizedOf body)⟩

lemma POST_ok_def (body : RequestBody) (k : Option String) (r : Except String Completion) :
    POST (.ok body) k r =
      if (filledOf body).length = 0 then validationErrorResponse
      else if !keyConfigured k then localSuccessResponse body
      else
        match r with
        | .error _ => genericErrorResponse
        | .ok completion => ⟨200, .successBody (aiSummary completion) (normalizedOf body)⟩ :=
  rfl

lemma POST_validation (body : RequestBody) (k : Option String) (r : Except String Completion)
    (h : filledOf body = []) : POST (.ok body) k r = validationErrorResponse := by
  rw [POST_ok_def, if_pos (by simp [h])]

lemma POST_local (body : RequestBody) (k : Option String) (r : Except String Completion)
    (h : filledOf body ≠ []) (hk : keyConfigured k = false) :
    POST (.ok body) k r = localSuccessResponse body := by
  rw [POST_ok_def, if_neg (by simp [h]), if_pos (by simp [hk])]

lemma POST_ai_ok (body : RequestBody) (k : Option String) (completion : Completion)
    (h : filledOf body ≠ []) (hk : keyConfigured k = true) :
    POST (.ok body) k (.ok completion) =
      ⟨200, .successBody (aiSummary completion) (normalizedOf body)⟩ := by
  rw [POST_ok_def, if_neg (by simp [h]), if_neg (by simp [hk])]

lemma POST_ai_error (body : RequestBody) (k : Option String) (e : String)
    (h : filledOf body ≠ []) (hk : keyConfigured k = true) :
    POST (.ok body) k (.error e) = genericErrorResponse := by
  rw [POST_ok_def, if_neg (by simp [h]), if_neg (by simp [hk])]

lemma POST_ne_validation (body : RequestBody) (k : Option String) (r : Except String Completion)
    (h : filledOf body ≠ []) : POST (.ok body) k r ≠ validationErrorResponse := by
  by_cases hk : keyConfigured k = true
  · cases r with
    | error e => rw [POST_ai_error body k e h hk]; decide
    | ok completion => rw [POST_ai_ok body k completion h hk]; simp [validationErrorResponse]
  · rw [POST_local body k r h (by simpa using hk)]
    simp [localSuccessResponse, validationErrorResponse]

lemma POST_success_inv (body : RequestBody) (k : Option String) (r : Except String Completion)
    (s : String) (n : Normalized)
    (h : POST (.ok body) k r = ⟨200, .successBody s n⟩) :
    n = normalizedOf body ∧ filledOf body ≠ [] := by
  have h0 : filledOf body ≠ [] := by
    intro he
    rw [POST_validation body k r he] at h
    simp [validationErrorResponse] at h
  refine ⟨?_, h0⟩
  by_cases hk : keyConfigured k = true
  · cases r with
    | error e =>
      rw [POST_ai_error body k e h0 hk] at h
      simp [genericErrorResponse] at h
    | ok completion =>
      rw [POST_ai_ok body k completion h0 hk] at h
      simp only [HttpResponse.mk.injEq, ResponseBody.successBody.injEq] at h
      exact h.2.2.symm
  · rw [POST_local body k r h0 (by simpa using hk)] at h
    simp only [localSuccessResponse, HttpResponse.mk.injEq, ResponseBody.successBody.injEq] at h
    exact h.2.2.symm

lemma jsTrim_empty : jsTrim "" = "" := rfl

lemma fieldFilled_false_iff (o : Option String) :
    fieldFilled o = false ↔ jsTrim (o.getD "") = "" := by
  cases o with
  | none => exact ⟨fun _ => rfl, fun _ => rfl⟩
  | some s =>
    simp only [fieldFilled, Option.getD_some, Bool.and_eq_false_iff, Bool.not_eq_false',
      beq_iff_eq]
    constructor
    · rintro (h | h)
      · subst h; rfl
      · exact h
    · exact fun h => Or.inr h

/-- A child record fails the filter exactly when all three text fields are
missing or whitespace-only. -/
lemma isFilled_false_iff (c : ChildInput) :
    isFilled c = false ↔
      jsTrim (c.name.getD "") = "" ∧ jsTrim (c.age.getD "") = "" ∧
        jsTrim (c.grade.getD "") = "" := by
  simp only [isFilled, Bool.or_eq_false_iff, fieldFilled_false_iff, and_assoc]

lemma filledOf_eq_nil_iff (body : RequestBody) :
    filledOf body = [] ↔
      ∀ c ∈ body.children.getD [], jsTrim (c.name.getD "") = "" ∧
        jsTrim (c.age.getD "") = "" ∧ jsTrim (c.grade.getD "") = "" := by
  rw [filledOf, List.filter_eq_nil_iff]
  constructor
  · intro h c hc
    rw [← isFilled_false_iff]
    exact Bool.eq_false_iff.mpr (h c hc)
  · intro h c hc
    exact Bool.eq_false_iff.mp ((isFilled_false_iff c).mpr (h c hc))

/-! ### Claims -/

/-- C1: the endpoint returns status 400 with body
error "At least one child is required." exactly when every child record of
the parsed payload (a missing or non-array `children` field reading as the
empty list) has all three text fields missing, empty or whitespace-only
after trimming; in particular a payload with at least one filled child
never receives this validation error. -/
theorem c1_validation_error_iff (body : RequestBody) (k : Option String)
    (r : Except String Completion) :
    POST (.ok body) k r = ⟨400, .errorBody "At least one child is required."⟩ ↔
      ∀ c ∈ body.children.getD [], jsTrim (c.name.getD "") = "" ∧
        jsTrim (c.age.getD "") = "" ∧ jsTrim (c.grade.getD "") = "" := by
  rw [← filledOf_eq_nil_iff]
  constructor
  · intro h
    by_contra hne
    exact POST_ne_validation body k r hne h
  · intro h
    exact POST_validation body k r h

/-- C2: whenever the handler answers 200, the `children` list of the echoed
`normalized` object is exactly the input children filtered by the
fill predicate: an order-preserving subsequence of the input list whose
members are precisely the filled records, each kept with its field values
unmodified. -/
theorem c2_normalized_children_filter (body : RequestBody) (k : Option String)
    (r : Except String Completion) (s : String) (n : Normalized)
    (h : POST (.ok body) k r = ⟨200, .successBody s n⟩) :
    n.children = (body.children.getD []).filter isFilled ∧
    n.children.Sublist (body.children.getD []) ∧
    (∀ c ∈ n.children, isFilled c = true) ∧
    (∀ c ∈ body.children.getD [], isFilled c = true → c ∈ n.children) := by
  obtain ⟨hn, -⟩ := POST_success_inv body k r s n h
  subst hn
  refine ⟨rfl, List.filter_sublist _, ?_, ?_⟩
  · intro c hc
    exact List.of_mem_filter hc
  · intro c hc hf
    exact List.mem_filter.mpr ⟨hc, hf⟩

/-- A concrete request body used by witnesses: one filled child followed by
one blank child, scalar fields missing. -/
def sampleBody : RequestBody :=
  ⟨some [⟨none, some "Emma", some "10", some "4"⟩, ⟨none, some "", some "", some ""⟩],
    none, none, none⟩

/-- C2 witness: on a concrete two-child payload whose second record is
blank, the echoed list is the filter of the input, namely the first record
alone. -/
theorem c2_witness :
    (normalizedOf sampleBody).children =
        (sampleBody.children.getD []).filter isFilled ∧
      (sampleBody.children.getD []).filter isFilled =
        [⟨none, some "Emma", some "10", some "4"⟩] :=
  ⟨(c2_normalized_children_filter sampleBody none (.ok ⟨[]⟩) _ _ rfl).1, by decide⟩

lemma POST_validation_iff (body : RequestBody) (k : Option String)
    (r : Except String Completion) :
    POST (.ok body) k r = validationErrorResponse ↔ filledOf body = [] := by
  constructor
  · intro h
    by_contra hne
    exact POST_ne_validation body k r hne h
  · exact POST_validation body k r

lemma trimOr_eq (o : Option String) (fb : String) :
    trimOr o fb = if jsTrim (o.getD "") = "" then fb else jsTrim (o.getD "") := by
  cases o with
  | none => simp [trimOr, jsTrim_empty]
  | some s => rfl

lemma descriptor_eq_spec (i : Nat) (c : ChildInput) :
    descriptor i c =
      specDescriptor (i + 1) (c.name.getD "") (c.age.getD "") (c.grade.getD "") := by
  simp only [descriptor, specDescriptor, trimOr_eq]

lemma descriptorsFrom_eq_spec (i : Nat) (cs : List ChildInput) :
    descriptorsFrom i cs = specDescriptorsFrom (i + 1) cs := by
  induction cs generalizing i with
  | nil => rfl
  | cons c cs ih =>
    simp only [descriptorsFrom, specDescriptorsFrom, descriptor_eq_spec, ih]

/-- C3: the descriptor text of the filled children is exactly the
section 4.1 text: trimmed fields, "Child N" name fallback with N the
1-based position among the filled records, "?" age and grade fallbacks,
joined with ", " in input order; in particular a lone record with
name "", age "7", grade "" yields "Child 1 (age 7, grade ?)". -/
theorem c3_descriptor_spec :
    (∀ cs : List ChildInput, childDescriptions cs = specDescriptions cs) ∧
      childDescriptions [⟨none, some "", some "7", some ""⟩] =
        "Child 1 (age 7, grade ?)" := by
  constructor
  · intro cs
    rw [childDescriptions, specDescriptions, descriptorsFrom_eq_spec]
  · decide

/-- C4: at normalization time a missing `philosophy` and an empty
`location` both become the literal "Not specified" in the echoed
`normalized` object, and the scalar fields have no bearing on whether the
validation error is returned. -/
theorem c4_scalar_defaults :
    (∀ (children : Option (List ChildInput)) (goals : Option String)
        (k : Option String) (r : Except String Completion) (s : String) (n : Normalized),
      POST (.ok ⟨children, none, some "", goals⟩) k r = ⟨200, .successBody s n⟩ →
        n.philosophy = "Not specified" ∧ n.location = "Not specified") ∧
    (∀ (body : RequestBody) (p l g : Option String) (k : Option String)
        (r : Except String Completion),
      POST (.ok body) k r = ⟨400, .errorBody "At least one child is required."⟩ ↔
        POST (.ok ⟨body.children, p, l, g⟩) k r =
          ⟨400, .errorBody "At least one child is required."⟩) := by
  constructor
  · intro children goals k r s n h
    obtain ⟨hn, -⟩ := POST_success_inv _ k r s n h
    subst hn
    exact ⟨rfl, rfl⟩
  · intro body p l g k r
    rw [show (⟨400, .errorBody "At least one child is required."⟩ : HttpResponse) =
        validationErrorResponse from rfl,
      POST_validation_iff, POST_validation_iff]
    exact Iff.rfl

/-- C4 witness: a concrete payload with `philosophy` missing and
`location` the empty string is answered with both scalars defaulted. -/
theorem c4_witness :
    (normalizedOf ⟨some [⟨none, some "Emma", some "10", some "4"⟩], none, some "", none⟩).philosophy
        = "Not specified" ∧
      (normalizedOf ⟨some [⟨none, some "Emma", some "10", some "4"⟩], none, some "", none⟩).location
        = "Not specified" :=
  c4_scalar_defaults.1 (some [⟨none, some "Emma", some "10", some "4"⟩]) none none
    (.ok ⟨[]⟩) _ _ rfl

/-- C5: with no configured credential the handler never fails on account of
the missing credential: every payload with a filled child receives the
local fallback 200 response (summary plus normalized payload), and in
general the answer is either the validation error or that local success. -/
theorem c5_local_fallback (body : RequestBody) (k : Option String)
    (r : Except String Completion) (hk : keyConfigured k = false) :
    (filledOf body ≠ [] → POST (.ok body) k r = localSuccessResponse body) ∧
      (POST (.ok body) k r = ⟨400, .errorBody "At least one child is required."⟩ ∨
        POST (.ok body) k r = localSuccessResponse body) := by
  refine ⟨fun h => POST_local body k r h hk, ?_⟩
  by_cases h : filledOf body = []
  · exact Or.inl (POST_validation body k r h)
  · exact Or.inr (POST_local body k r h hk)

/-- C5 witness: with no key, even a failing external call leaves a concrete
valid payload answered by the local fallback success. -/
theorem c5_witness :
    POST (.ok sampleBody) none (.error "network down") =
      localSuccessResponse sampleBody :=
  (c5_local_fallback sampleBody none (.error "network down") rfl).1 (by decide)

/-- C6: both throwing branches land in the catch block and are answered by
the fixed generic 400; the answer is the same whatever the internal error
detail `e` was, so no detail of it reaches the caller. -/
theorem c6_generic_error (e : String) (k : Option String) (r : Except String Completion)
    (body : RequestBody) (hk : keyConfigured k = true) (hf : filledOf body ≠ []) :
    POST (.error e) k r =
        ⟨400, .errorBody "Invalid request payload or AI generation error."⟩ ∧
      POST (.ok body) k (.error e) =
        ⟨400, .errorBody "Invalid request payload or AI generation error."⟩ :=
  ⟨rfl, POST_ai_error body k e hf hk⟩

/-- C6 witness: a malformed body and a throwing completion call, on
concrete inputs, both produce the fixed generic 400. -/
theorem c6_witness :
    POST (.error "boom") (some "sk-test") (.ok ⟨[]⟩) =
        ⟨400, .errorBody "Invalid request payload or AI generation error."⟩ ∧
      POST (.ok sampleBody) (some "sk-test") (.error "boom") =
        ⟨400, .errorBody "Invalid request payload or AI generation error."⟩ :=
  c6_generic_error "boom" (some "sk-test") (.ok ⟨[]⟩) sampleBody rfl (by decide)

/-- C7: with no configured credential the endpoint is deterministic: two
invocations on the same parsed payload answer with byte-identical summary
text and identical normalized payloads, whatever the never-consulted
external call would have done in either invocation. -/
theorem c7_deterministic (body : RequestBody) (k : Option String)
    (r₁ r₂ : Except String Completion) (s₁ s₂ : String) (n₁ n₂ : Normalized)
    (hk : keyConfigured k = false)
    (h₁ : POST (.ok body) k r₁ = ⟨200, .successBody s₁ n₁⟩)
    (h₂ : POST (.ok body) k r₂ = ⟨200, .successBody s₂ n₂⟩) :
    s₁ = s₂ ∧ n₁ = n₂ := by
  have hf : filledOf body ≠ [] := (POST_success_inv body k r₁ s₁ n₁ h₁).2
  rw [POST_local body k r₁ hf hk] at h₁
  rw [POST_local body k r₂ hf hk] at h₂
  have h := h₁.symm.trans h₂
  simp only [HttpResponse.mk.injEq, ResponseBody.successBody.injEq] at h
  exact ⟨h.2.1, h.2.2⟩

/-- C7 witness: the two hypotheses hold on a concrete payload with two
different outcomes of the never-made external call. -/
theorem c7_witness :
    fallbackSummary (childDescriptions (filledOf sampleBody)) (orNotSpecified none)
        (orNotSpecified none) (orNotSpecified none) =
      fallbackSummary (childDescriptions (filledOf sampleBody)) (orNotSpecified none)
        (orNotSpecified none) (orNotSpecified none) ∧
      normalizedOf sampleBody = normalizedOf sampleBody :=
  c7_deterministic sampleBody none (.ok ⟨[]⟩) (.error "x") _ _ _ _ rfl rfl rfl

/-- C8: in the generative branch the external text is trimmed and used
verbatim as the summary; a missing first choice, missing message or
content, or content that is whitespace-only after trimming yields exactly
the literal "Unable to generate a summary at this time."; and in either
case the response is a 200 success carrying that summary, not an error. -/
theorem c8_ai_summary_text :
    (∀ (c : Completion) (s : String), completionText c = some s → jsTrim s ≠ "" →
        aiSummary c = jsTrim s) ∧
      (∀ c : Completion, (completionText c = none ∨
          ∃ s, completionText c = some s ∧ jsTrim s = "") →
        aiSummary c = "Unable to generate a summary at this time.") ∧
      (∀ (body : RequestBody) (k : Option String) (c : Completion),
        keyConfigured k = true → filledOf body ≠ [] →
        POST (.ok body) k (.ok c) =
          ⟨200, .successBody (aiSummary c) (normalizedOf body)⟩) := by
  refine ⟨?_, ?_, ?_⟩
  · intro c s hs hne
    rw [aiSummary, hs]
    simp [trimOr, hne]
  · intro c hc
    rcases hc with h | ⟨s, hs, ht⟩
    · rw [aiSummary, h]
      rfl
    · rw [aiSummary, hs]
      simp [trimOr, ht]
  · intro body k c hk hf
    exact POST_ai_ok body k c hf hk

/-- C8 witness: a padded text is trimmed and used verbatim; an empty choice
list falls back to the fixed sentence; and a concrete generative request is
still a 200 success carrying the fallback sentence. -/
theorem c8_witness :
    aiSummary ⟨[⟨some ⟨some "  A fine plan.  "⟩⟩]⟩ = jsTrim "  A fine plan.  " ∧
      aiSummary ⟨[]⟩ = "Unable to generate a summary at this time." ∧
      POST (.ok sampleBody) (some "sk-test") (.ok ⟨[]⟩) =
        ⟨200, .successBody (aiSummary ⟨[]⟩) (normalizedOf sampleBody)⟩ :=
  ⟨c8_ai_summary_text.1 ⟨[⟨some ⟨some "  A fine plan.  "⟩⟩]⟩ "  A fine plan.  " rfl
      (by decide),
    c8_ai_summary_text.2.1 ⟨[]⟩ (Or.inl rfl),
    c8_ai_summary_text.2.2 sampleBody (some "sk-test") ⟨[]⟩ rfl (by decide)⟩

/-- C9 counterexample: on the single row with name "", age "7" and
grade "", the client preview prints "Unnamed (age 7, grade ?)" while the
server (and section 4.1) print "Child 1 (age 7, grade ?)"; the claimed
equality of descriptor texts fails. -/
theorem c9_counterexample :
    clientDescriptions [⟨1, "", "7", ""⟩] = "Unnamed (age 7, grade ?)" ∧
      serverDescriptions [⟨1, "", "7", ""⟩] = "Child 1 (age 7, grade ?)" ∧
      specDescriptions ((([⟨1, "", "7", ""⟩] : List Child).map Child.toInput).filter
        isFilled) = "Child 1 (age 7, grade ?)" ∧
      clientDescriptions [⟨1, "", "7", ""⟩] ≠ serverDescriptions [⟨1, "", "7", ""⟩] :=
  ⟨by decide, by decide, by decide, by decide⟩

lemma descriptor_toInput (i : Nat) (c : Child) (h1 : c.name ≠ "")
    (h2 : jsTrim c.name = c.name) (h3 : jsTrim c.age = c.age)
    (h4 : jsTrim c.grade = c.grade) :
    descriptor i (Child.toInput c) = clientDescriptor c := by
  simp only [descriptor, Child.toInput, clientDescriptor, trimOr, h2, h3, h4, if_neg h1]

lemma clientFilled_of_name (c : Child) (h1 : c.name ≠ "")
    (h2 : jsTrim c.name = c.name) : clientFilled c = true := by
  simp [clientFilled, h2, h1]

lemma isFilled_toInput (c : Child) (h1 : c.name ≠ "")
    (h2 : jsTrim c.name = c.name) : isFilled (Child.toInput c) = true := by
  simp [isFilled, Child.toInput, fieldFilled, h2, h1]

lemma descriptorsFrom_toInput :
    ∀ cs : List Child, (∀ c ∈ cs, c.name ≠ "" ∧ jsTrim c.name = c.name ∧
        jsTrim c.age = c.age ∧ jsTrim c.grade = c.grade) →
      ∀ i : Nat, descriptorsFrom i (cs.map Child.toInput) = cs.map clientDescriptor := by
  intro cs
  induction cs with
  | nil => intro _ _; rfl
  | cons c cs ih =>
    intro h i
    obtain ⟨h1, h2, h3, h4⟩ := h c (List.mem_cons_self c cs)
    have hrest := ih (fun d hd => h d (List.mem_cons_of_mem _ hd)) (i + 1)
    simp only [List.map_cons, descriptorsFrom, descriptor_toInput i c h1 h2 h3 h4, hrest]

/-- C9 amended: the client preview does not reproduce the section 4.1
descriptor text in general (it uses the fallback name "Unnamed" instead of
"Child N" and does not trim fields); the two texts coincide exactly on the
rows the discrepancy cannot touch, namely when every row's name is
non-empty and every field is unchanged by trimming. -/
theorem c9_amended_descriptor_agreement (cs : List Child)
    (h : ∀ c ∈ cs, c.name ≠ "" ∧ jsTrim c.name = c.name ∧ jsTrim c.age = c.age ∧
      jsTrim c.grade = c.grade) :
    clientDescriptions cs = serverDescriptions cs := by
  rw [clientDescriptions, serverDescriptions, childDescriptions]
  have hfc : cs.filter clientFilled = cs :=
    List.filter_eq_self.mpr fun c hc => clientFilled_of_name c (h c hc).1 (h c hc).2.1
  have hfs : (cs.map Child.toInput).filter isFilled = cs.map Child.toInput := by
    apply List.filter_eq_self.mpr
    intro x hx
    obtain ⟨c, hc, rfl⟩ := List.mem_map.mp hx
    exact isFilled_toInput c (h c hc).1 (h c hc).2.1
  rw [hfc, hfs, descriptorsFrom_toInput cs h 0]

/-- C9 witness: a fully-specified trimmed row, on which client and server
texts agree. -/
theorem c9_witness :
    clientDescriptions [⟨1, "Emma", "10", "4"⟩] =
      serverDescriptions [⟨1, "Emma", "10", "4"⟩] :=
  c9_amended_descriptor_agreement [⟨1, "Emma", "10", "4"⟩] (by decide)

set_option maxRecDepth 10000 in
/-- C10: `||` defaulting tests falsiness, not emptiness after trimming: a
non-empty whitespace-only scalar field such as " " is never replaced by
"Not specified" but passes through verbatim into the normalized payload;
on a concrete request the local summary text carries the whitespace
philosophy verbatim ("Philosophy:  " with the blank) while the omitted
scalars read "Not specified". -/
theorem c10_whitespace_not_defaulted :
    (∀ s : String, s ≠ "" → orNotSpecified (some s) = s) ∧
      (∀ (body : RequestBody) (k : Option String) (r : Except String Completion)
          (s : String) (n : Normalized), body.philosophy = some " " →
        POST (.ok body) k r = ⟨200, .successBody s n⟩ → n.philosophy = " ") ∧
      POST (.ok ⟨some [⟨none, some "Emma", some "10", some "4"⟩], some " ", none, none⟩)
          none (.ok ⟨[]⟩) =
        ⟨200, .successBody
          "Draft planning summary (local fallback)\n--------------------------------------\nChildren: Emma (age 10, grade 4)\nPhilosophy:  \nLocation: Not specified\nParent priorities: Not specified\n\nNote: The OpenAI API key is not configured on the server, so this is a simple placeholder summary instead of an AI-generated one."
          ⟨[⟨none, some "Emma", some "10", some "4"⟩], " ", "Not specified",
            "Not specified"⟩⟩ := by
  refine ⟨?_, ?_, ?_⟩
  · intro s hs
    simp [orNotSpecified, hs]
  · intro body k r s n hp h
    obtain ⟨hn, -⟩ := POST_success_inv body k r s n h
    subst hn
    show orNotSpecified body.philosophy = " "
    rw [hp]
    decide
  · decide

/-- C10 witness: the whitespace-only philosophy " " passes through the
defaulting untouched. -/
theorem c10_witness : orNotSpecified (some " ") = " " :=
  c10_whitespace_not_defaulted.1 " " (by decide)
